import Mathlib

/-!
Verification of the button-led firmware (src/main.rs, src/server.rs).

The development shallowly embeds the program's data model and operations:
the `LedInput` intent enumeration, the latest-wins `Signal` cell
(`NOTIFY_LED`), the actuator step of `change_led`, the Wi-Fi supervisor
loop `connect`, the polling loops of `get_ip`, the HTTP router of
`AppProps::build_app`, the server configuration built in `run`, and the
worker-spawning loop `run_server`.
-/

namespace ButtonLed

/-- `const MILLISECONDS_TO_WAIT: u64 = 100;` (main.rs). -/
def MILLISECONDS_TO_WAIT : Nat := 100

/-- `const SECONDS_TO_WAIT_FOR_RECONNECTION: u64 = 5;` (main.rs). -/
def SECONDS_TO_WAIT_FOR_RECONNECTION : Nat := 5

/-- `enum LedInput { On, Off, Button }` (main.rs). -/
inductive LedInput where
  | On
  | Off
  | Button
deriving DecidableEq, Repr

/-- GPIO output levels (`esp_hal::gpio::Level`). -/
inductive Level where
  | Low
  | High
deriving DecidableEq, Repr

/-- State of the `embassy_sync` `Signal` cell `NOTIFY_LED`: at most one
pending `LedInput`. `Signal::new()` starts empty. -/
def SignalState : Type := Option LedInput

/-- `NOTIFY_LED` right after `Signal::new()`: no pending value. -/
def NOTIFY_LED_init : SignalState := none

/-- `Signal::signal(v)`: stores `v`, overwriting any unconsumed prior
value (latest-intent-wins, no queueing). -/
def sigPost (_s : SignalState) (v : LedInput) : SignalState := some v

/-- `Signal::wait()`: when a value is pending, returns it and clears the
cell; when the cell is empty the task suspends (modelled as `none`). -/
def sigConsume : SignalState → Option (LedInput × SignalState)
  | some v => some (v, none)
  | none => none

/-- `fn led_on` (main.rs): `led.set_low()`. -/
def led_on (_l : Level) : Level := Level.Low

/-- `fn led_off` (main.rs): `led.set_high()`. -/
def led_off (_l : Level) : Level := Level.High

/-- `Output::is_set_high` on the led pin. -/
def is_set_high (l : Level) : Bool := l == Level.High

/-- One intent application by `change_led` (main.rs): `On` calls
`led_on`, `Off` calls `led_off`, `Button` calls `led_on` when the pin is
set high and `led_off` otherwise. -/
def change_led_step (l : Level) : LedInput → Level
  | LedInput.On => led_on l
  | LedInput.Off => led_off l
  | LedInput.Button => if is_set_high l then led_on l else led_off l

/-- The level `led_on` drives: the LED lights when the pin is low
(active-low wiring). -/
def active_level : Level := led_on Level.High

/-- The level `led_off` drives: the LED is dark when the pin is high. -/
def inactive_level : Level := led_off Level.Low

/-- `Output::new(peripherals.GPIO8, Level::High, ...)` (main.rs): the led
pin starts at `High`. -/
def initial_led_level : Level := Level.High

/-- The `GET /on` handler's effect on the signal cell (server.rs):
`NOTIFY_LED.signal(LedInput::On)`. -/
def on_handler (s : SignalState) : SignalState := sigPost s LedInput.On

/-- The `GET /off` handler's effect on the signal cell (server.rs):
`NOTIFY_LED.signal(LedInput::Off)`. -/
def off_handler (s : SignalState) : SignalState := sigPost s LedInput.Off

/-- Folding a burst of posts over the signal cell leaves exactly the
last posted value pending. -/
theorem foldl_sigPost_getLast (ps : List LedInput) (s : SignalState)
    (v : LedInput) (h : ps.getLast? = some v) :
    ps.foldl sigPost s = some v := by
  induction ps generalizing s with
  | nil => simp at h
  | cons a t ih =>
    cases t with
    | nil =>
      simp at h
      simp [List.foldl, sigPost, h]
    | cons b t2 =>
      rw [List.getLast?_cons_cons] at h
      simpa [List.foldl] using ih (sigPost s a) h

/-- C1: For every sequence of `post(intent)` calls on the
`ActuatorSignal` (`NOTIFY_LED.signal`) since the previous consumption,
from any cell state, the next `wait` consumption returns exactly the
most recently posted intent — never an earlier overwritten one, and
never no value when at least one post occurred — and leaves the cell
empty. -/
theorem signal_latest_wins (ps : List LedInput) (s : SignalState)
    (v : LedInput) (h : ps.getLast? = some v) :
    sigConsume (ps.foldl sigPost s) = some (v, none) := by
  rw [foldl_sigPost_getLast ps s v h]
  rfl

/-- Witness for C1: posting `On` then `Button` then `Off` into an empty
cell and consuming yields exactly `Off`. -/
theorem signal_latest_wins_witness :
    sigConsume ([LedInput.On, LedInput.Button, LedInput.Off].foldl
      sigPost NOTIFY_LED_init) = some (LedInput.Off, none) :=
  signal_latest_wins [LedInput.On, LedInput.Button, LedInput.Off]
    NOTIFY_LED_init LedInput.Off rfl

/-- C2: consuming a `Toggle` intent (`LedInput::Button`) at the active
level drives the pin inactive and vice versa, and two consecutive
`Button` intents with no intervening `On`/`Off` restore the original
level: the `Button` step is an involution on the pin state. -/
theorem toggle_involution :
    change_led_step active_level LedInput.Button = inactive_level
    ∧ change_led_step inactive_level LedInput.Button = active_level
    ∧ ∀ l : Level,
        change_led_step (change_led_step l LedInput.Button)
          LedInput.Button = l := by
  refine ⟨rfl, rfl, ?_⟩
  intro l
  cases l <;> rfl

/-- C3: posting via the `GET /on` handler then the `GET /off` handler
with no intervening consumption makes the next consumption observe
`Off`, and applying `Off` leaves the pin at the inactive level, whatever
the cell state and pin level were. -/
theorem on_then_off_ends_inactive (s : SignalState) (l : Level) :
    sigConsume (off_handler (on_handler s)) = some (LedInput.Off, none)
    ∧ change_led_step l LedInput.Off = inactive_level := by
  refine ⟨rfl, ?_⟩
  cases l <;> rfl

/-- C9: the output pin is created at `High`, which is the inactive
(LED-off) level of this active-low actuator — `led_off` drives exactly
this level, `led_on` drives the other — and the signal cell starts
empty, so the LED stays off until a first intent is consumed. -/
theorem initial_led_inactive :
    initial_led_level = Level.High
    ∧ initial_led_level = inactive_level
    ∧ (∀ l : Level, led_off l = initial_led_level)
    ∧ (∀ l : Level, led_on l = active_level)
    ∧ active_level ≠ inactive_level
    ∧ NOTIFY_LED_init = none := by
  refine ⟨rfl, rfl, fun l => rfl, fun l => rfl, ?_, rfl⟩
  decide

/-- The Wi-Fi states `connect` distinguishes: `wifi_state() ==
WifiState::StaConnected` or anything else. -/
inductive WifiState where
  | StaConnected
  | Other
deriving DecidableEq, Repr

/-- What one iteration of the `connect` loop observes: the Wi-Fi state
at the top, whether the controller is already started
(`is_started() == Ok(true)`), whether `start_async` would succeed if
attempted, and whether `connect_async` succeeds. -/
structure ConnectEnv where
  wifi_state : WifiState
  is_started : Bool
  start_ok : Bool
  connect_ok : Bool
deriving DecidableEq, Repr

/-- Outcome of one loop iteration: loop again after performing the
listed timer delays (in seconds), terminate by a panic, or leave the
loop by a break/return. -/
inductive LoopOutcome where
  | again (delays : List Nat)
  | halt
  | stop
deriving DecidableEq, Repr

/-- The timer delays (in seconds) one iteration of `connect` performs:
`Timer::after_secs(SECONDS_TO_WAIT_FOR_RECONNECTION)` after an observed
`StaDisconnected` event, and the same after a failed `connect_async`. -/
def connect_iteration_delays (env : ConnectEnv) : List Nat :=
  (if env.wifi_state = WifiState.StaConnected
    then [SECONDS_TO_WAIT_FOR_RECONNECTION] else [])
  ++ (if env.connect_ok then [] else [SECONDS_TO_WAIT_FOR_RECONNECTION])

/-- The body of the `connect` loop (main.rs): when the controller is
not started, `start_async().await.unwrap()` runs — a failed start
panics the process (`LoopOutcome.halt`); otherwise the body contains no
`break` or `return`, so the iteration ends by looping again. -/
def connect_body (env : ConnectEnv) : LoopOutcome :=
  if env.is_started = false ∧ env.start_ok = false then LoopOutcome.halt
  else LoopOutcome.again (connect_iteration_delays env)

/-- C5 counterexample: an iteration that finds the controller not
started and whose `start_async` fails panics on the `unwrap`
(main.rs line 82) — the loop, and the process, terminate there, so the
claim's `retries never stop — the loop never terminates` is false as
stated. -/
theorem connect_start_unwrap_halts :
    connect_body ⟨WifiState.Other, false, false, true⟩ = LoopOutcome.halt
    ∧ connect_body ⟨WifiState.Other, false, false, true⟩
        ≠ LoopOutcome.again
            (connect_iteration_delays ⟨WifiState.Other, false, false, true⟩)
    := by
  decide

/-- C5 (amended): in every iteration of the link-supervisor loop, an
association failure and an observed disconnect event are each followed
by the same fixed `SECONDS_TO_WAIT_FOR_RECONNECTION = 5` second delay;
the delay never grows and the loop never breaks or gives up — every
iteration loops again, except that an iteration panics (terminating the
process) exactly when the controller is not started and the Wi-Fi start
attempt fails its `unwrap`. -/
theorem connect_retry_fixed_delay (env : ConnectEnv) :
    (connect_body env = LoopOutcome.halt ↔
        env.is_started = false ∧ env.start_ok = false)
    ∧ (connect_body env ≠ LoopOutcome.halt →
        connect_body env = LoopOutcome.again (connect_iteration_delays env))
    ∧ connect_body env ≠ LoopOutcome.stop
    ∧ (∀ d ∈ connect_iteration_delays env,
        d = SECONDS_TO_WAIT_FOR_RECONNECTION)
    ∧ SECONDS_TO_WAIT_FOR_RECONNECTION = 5
    ∧ (env.connect_ok = false →
        SECONDS_TO_WAIT_FOR_RECONNECTION ∈ connect_iteration_delays env)
    ∧ (env.wifi_state = WifiState.StaConnected →
        SECONDS_TO_WAIT_FOR_RECONNECTION ∈ connect_iteration_delays env)
    := by
  obtain ⟨ws, st, so, ok⟩ := env
  cases ws <;> cases st <;> cases so <;> cases ok <;> decide

/-- Witness for C5: an iteration of a started controller that saw a
disconnect and then a failed reconnection attempt loops again and
waits 5 seconds in both places. -/
theorem connect_retry_fixed_delay_witness :
    connect_body ⟨WifiState.StaConnected, true, true, false⟩
        = LoopOutcome.again
            (connect_iteration_delays ⟨WifiState.StaConnected, true, true, false⟩)
    ∧ SECONDS_TO_WAIT_FOR_RECONNECTION
        ∈ connect_iteration_delays ⟨WifiState.StaConnected, true, true, false⟩ :=
  ⟨(connect_retry_fixed_delay ⟨WifiState.StaConnected, true, true, false⟩).2.1
      (by decide),
   (connect_retry_fixed_delay
      ⟨WifiState.StaConnected, true, true, false⟩).2.2.2.2.2.1 rfl⟩

/-- The pool size of the embassy task `run_server` spawns for a build
pool size `p`: the `match WEB_TASK_POOL_SIZE.max(1)` in server.rs picks
`web_task1` .. `web_task7` for 1..7 and falls through to `web_task8`
(pool_size 8) for anything larger. -/
def web_task_capacity (p : Nat) : Nat :=
  match max p 1 with
  | 1 => 1
  | 2 => 2
  | 3 => 3
  | 4 => 4
  | 5 => 5
  | 6 => 6
  | 7 => 7
  | _ => 8

/-- The spawning loop of `run_server`: iterate the remaining spawn
count, tracking the id (= number of instances already live); a spawn of
a pool task with `cap` live slots fails — and its `unwrap` panics,
modelled as `Except.error id` — once `id` reaches `cap`. -/
def spawn_workers (cap : Nat) : Nat → Nat → List Nat → Except Nat (List Nat)
  | 0, _, acc => Except.ok acc.reverse
  | n + 1, id, acc =>
      if id < cap then spawn_workers cap n (id + 1) (id :: acc)
      else Except.error id

/-- `run_server` (server.rs): spawn `WEB_TASK_POOL_SIZE.max(1)` worker
instances of the task selected by `web_task_capacity`. -/
def run_server (p : Nat) : Except Nat (List Nat) :=
  spawn_workers (web_task_capacity p) (max p 1) 0 []

theorem spawn_workers_ok (cap : Nat) :
    ∀ n id acc, id + n ≤ cap →
      spawn_workers cap n id acc
        = Except.ok (acc.reverse ++ List.range' id n) := by
  intro n
  induction n with
  | zero => intro id acc _; simp [spawn_workers]
  | succ m ih =>
    intro id acc h
    have hid : id < cap := by omega
    rw [spawn_workers, if_pos hid, ih (id + 1) (id :: acc) (by omega)]
    simp [List.range'_succ]

theorem spawn_workers_panic (cap : Nat) :
    ∀ n id acc, id ≤ cap → cap < id + n →
      spawn_workers cap n id acc = Except.error cap := by
  intro n
  induction n with
  | zero => intro id acc h1 h2; omega
  | succ m ih =>
    intro id acc h1 h2
    by_cases hid : id < cap
    · rw [spawn_workers, if_pos hid]
      exact ih (id + 1) (id :: acc) (by omega) (by omega)
    · have : id = cap := by omega
      rw [spawn_workers, if_neg hid, this]

theorem web_task_capacity_of_le (p : Nat) (h : p ≤ 8) :
    web_task_capacity p = max p 1 := by
  interval_cases p <;> rfl

theorem web_task_capacity_of_gt (p : Nat) (h : 8 < p) :
    web_task_capacity p = 8 := by
  obtain ⟨k, rfl⟩ : ∃ k, p = k + 9 := ⟨p - 9, by omega⟩
  rfl

/-- C10: for every build pool size `p ≤ 8` the spawning loop succeeds
and spawns exactly `max(p, 1)` workers (ids `0 .. max(p,1) - 1`), so the
configured minimum of 1 is honored; for every `p > 8` the loop attempts
`p` spawns against a task pool of capacity 8, and the ninth spawn
(id 8) fails its `unwrap` — an undocumented maximum of 8 workers. -/
theorem run_server_pool_bounds (p : Nat) :
    (p ≤ 8 → run_server p = Except.ok (List.range (max p 1)))
    ∧ (8 < p → run_server p = Except.error 8 ∧ web_task_capacity p = 8)
    := by
  constructor
  · intro h
    rw [run_server, web_task_capacity_of_le p h,
      spawn_workers_ok (max p 1) (max p 1) 0 [] (by omega)]
    simp [List.range_eq_range']
  · intro h
    have hc := web_task_capacity_of_gt p h
    refine ⟨?_, hc⟩
    rw [run_server, hc,
      spawn_workers_panic 8 (max p 1) 0 [] (by omega) (by omega)]

/-- Witness for C10: pool size 8 spawns the eight workers 0..7, and
pool size 9 panics at the ninth spawn (id 8). -/
theorem run_server_pool_bounds_witness :
    run_server 8 = Except.ok (List.range 8)
    ∧ run_server 9 = Except.error 8 :=
  ⟨(run_server_pool_bounds 8).1 (by decide),
   ((run_server_pool_bounds 9).2 (by decide)).1⟩

/-- The device configuration: `ssid` and `password` strings with empty
defaults (`toml_cfg` in main.rs). -/
structure DeviceConfig where
  ssid : String
  password : String
deriving DecidableEq, Repr

/-- The concurrent tasks `run` spawns, in program order. -/
inductive FirmwareTask where
  | connect
  | net_task
  | press_button
  | change_led
  | web_worker (id : Nat)
deriving DecidableEq, Repr

/-- `run` (main.rs) up to its spawns: the two `assert!`s on the
credentials panic first (`Except.error` with the assert message);
only past them are `connect`, `net_task`, `press_button`, `change_led`
and finally the `run_server` workers spawned. -/
def run_spawns (cfg : DeviceConfig) (p : Nat) :
    Except String (List FirmwareTask) :=
  if cfg.ssid.isEmpty then Except.error "Missing Wi-Fi SSID"
  else if cfg.password.isEmpty then Except.error "Missing Wi-Fi password"
  else
    match run_server p with
    | Except.error _ => Except.error "web task spawn failed"
    | Except.ok ids =>
        Except.ok ([FirmwareTask.connect, FirmwareTask.net_task,
          FirmwareTask.press_button, FirmwareTask.change_led]
          ++ ids.map FirmwareTask.web_worker)

/-- C4: whenever the SSID or the password string is empty, startup halts
at an assert — before the link supervisor, the network runner, the
button task, the actuator task, or any HTTP worker is spawned, so no
port-80 listener ever starts. -/
theorem empty_credentials_halt (cfg : DeviceConfig) (p : Nat)
    (h : cfg.ssid.isEmpty = true ∨ cfg.password.isEmpty = true) :
    (run_spawns cfg p = Except.error "Missing Wi-Fi SSID"
      ∨ run_spawns cfg p = Except.error "Missing Wi-Fi password")
    ∧ ∀ ts, run_spawns cfg p ≠ Except.ok ts := by
  by_cases hs : cfg.ssid.isEmpty
  · exact ⟨Or.inl (by simp [run_spawns, hs]), by simp [run_spawns, hs]⟩
  · have hp : cfg.password.isEmpty = true := by tauto
    exact ⟨Or.inr (by simp [run_spawns, hs, hp]),
      by simp [run_spawns, hs, hp]⟩

/-- Witness for C4: a configuration with an empty SSID halts with the
SSID assert and spawns nothing. -/
theorem empty_credentials_halt_witness :
    (run_spawns ⟨"", "secret"⟩ 8 = Except.error "Missing Wi-Fi SSID"
      ∨ run_spawns ⟨"", "secret"⟩ 8 = Except.error "Missing Wi-Fi password")
    ∧ ∀ ts, run_spawns ⟨"", "secret"⟩ 8 ≠ Except.ok ts :=
  empty_credentials_halt ⟨"", "secret"⟩ 8 (Or.inl rfl)

/-- A route of the picoserve `Router`: HTTP method, path, and the intent
its handler posts to `NOTIFY_LED`. -/
structure Route where
  method : String
  path : String
  intent : LedInput
deriving DecidableEq, Repr

/-- `AppProps::build_app` (server.rs): `Router::new()` with exactly the
route `GET /on` (handler posts `LedInput::On`) and the route `GET /off`
(handler posts `LedInput::Off`). -/
def build_app : List Route :=
  [⟨"GET", "/on", LedInput.On⟩, ⟨"GET", "/off", LedInput.Off⟩]

/-- Outcome of serving one request: the HTTP status and the intent the
matched handler posted, if any. -/
structure HttpOutcome where
  status : Nat
  posted : Option LedInput
deriving DecidableEq, Repr

/-- Models the picoserve router dispatch of
`Router::new().route(path, get(handler))`: the path is matched first;
on a matched path, the `get` MethodRouter runs the handler for a `GET`
request — the handler posts the route's intent and returns unit,
yielding 200 — and answers any other method with 405 Method Not
Allowed; a request matching no path yields 404. The signal cell is
untouched unless a handler runs. -/
def dispatch (rs : List Route) (method path : String) (s : SignalState) :
    HttpOutcome × SignalState :=
  match rs.find? (fun r => r.path == path) with
  | some r =>
      if r.method == method then (⟨200, some r.intent⟩, sigPost s r.intent)
      else (⟨405, none⟩, s)
  | none => (⟨404, none⟩, s)

/-- C7 counterexample: a `POST /on` request — an unregistered method on
a registered path — is answered 405 Method Not Allowed by the `get`
MethodRouter, not the 404 the claim states for every request for any
other method or path. -/
theorem router_post_on_not_404 :
    (dispatch build_app "POST" "/on" NOTIFY_LED_init).1.status = 405
    ∧ (dispatch build_app "POST" "/on" NOTIFY_LED_init).1.status ≠ 404
    := by
  constructor <;> decide

/-- C7 (amended): the router built at startup has exactly two routes;
`GET /on` yields 200 and posts `TurnOn`, `GET /off` yields 200 and
posts `TurnOff`; a request for a registered path (`/on` or `/off`) with
any other method yields 405 Method Not Allowed without posting, and a
request for any other path yields 404 without posting. -/
theorem router_two_routes :
    build_app.length = 2
    ∧ (∀ s, dispatch build_app "GET" "/on" s
        = (⟨200, some LedInput.On⟩, some LedInput.On))
    ∧ (∀ s, dispatch build_app "GET" "/off" s
        = (⟨200, some LedInput.Off⟩, some LedInput.Off))
    ∧ (∀ m s, m ≠ "GET" → ∀ p, (p = "/on" ∨ p = "/off") →
        dispatch build_app m p s = (⟨405, none⟩, s))
    ∧ (∀ m p s, p ≠ "/on" → p ≠ "/off" →
        dispatch build_app m p s = (⟨404, none⟩, s)) := by
  refine ⟨rfl, fun s => rfl, fun s => rfl, ?_, ?_⟩
  · intro m s hm p hp
    have hbeq : ("GET" == m) = false :=
      beq_eq_false_iff_ne.mpr (Ne.symm hm)
    rcases hp with rfl | rfl <;>
      simp [dispatch, build_app, hbeq]
  · intro m p s h1 h2
    have hfind : build_app.find? (fun r => r.path == p) = none := by
      rw [List.find?_eq_none]
      intro r hr
      simp only [build_app, List.mem_cons, List.mem_singleton] at hr
      rcases hr with rfl | rfl | h3
      · simp only [beq_iff_eq]
        exact fun he => h1 he.symm
      · simp only [beq_iff_eq]
        exact fun he => h2 he.symm
      · cases h3
    unfold dispatch
    rw [hfind]

/-- Witness for C7: a `PUT /off` request is answered 405 without
posting, and a `GET /missing` request is answered 404 without
posting. -/
theorem router_two_routes_witness :
    dispatch build_app "PUT" "/off" NOTIFY_LED_init
      = (⟨405, none⟩, NOTIFY_LED_init)
    ∧ dispatch build_app "GET" "/missing" NOTIFY_LED_init
      = (⟨404, none⟩, NOTIFY_LED_init) :=
  ⟨router_two_routes.2.2.2.1 "PUT" NOTIFY_LED_init (by decide) "/off"
      (Or.inr rfl),
   router_two_routes.2.2.2.2 "GET" "/missing" NOTIFY_LED_init
      (by decide) (by decide)⟩

/-- `picoserve::Timeouts` as built in `run` (main.rs); durations in
seconds. -/
structure Timeouts where
  start_read_request : Option Nat
  persistent_start_read_request : Option Nat
  read_request : Option Nat
  write : Option Nat
deriving DecidableEq, Repr

/-- The picoserve server configuration: timeouts plus whether
connections are kept alive after a request. -/
structure ServerConfig where
  timeouts : Timeouts
  keep_alive : Bool
deriving DecidableEq, Repr

/-- The `picoserve::Config` built in `run` (main.rs):
`start_read_request` 5 s, `persistent_start_read_request` 1 s,
`read_request` 1 s, `write` 1 s, then `.keep_connection_alive()`. -/
def server_config : ServerConfig :=
  { timeouts :=
      { start_read_request := some 5
        persistent_start_read_request := some 1
        read_request := some 1
        write := some 1 }
    keep_alive := true }

/-- `let port = 80;` in `web_task` (server.rs): every worker listens on
TCP port 80. -/
def web_task_port : Nat := 80

/-- C8: every HTTP worker listens on port 80, and the shared server
configuration sets exactly 5 s to begin reading a new request, 1 s to
begin reading a subsequent pipelined request, 1 s to finish reading a
request, 1 s to finish writing a response, with connections kept alive
rather than closed after one request. -/
theorem server_port_and_timeouts :
    web_task_port = 80
    ∧ server_config.timeouts.start_read_request = some 5
    ∧ server_config.timeouts.persistent_start_read_request = some 1
    ∧ server_config.timeouts.read_request = some 1
    ∧ server_config.timeouts.write = some 1
    ∧ server_config.keep_alive = true :=
  ⟨rfl, rfl, rfl, rfl, rfl, rfl⟩

/-- An IPv4 CIDR block; only the address part matters to `get_ip`
(`config.address.address()`), modelled as a plain number. -/
structure Ipv4Cidr where
  address : Nat
deriving DecidableEq, Repr

/-- The leased DHCP IPv4 configuration (`embassy_net` `StaticConfigV4`),
as read through `stack.config_v4()`. -/
structure StaticConfigV4 where
  address : Ipv4Cidr
deriving DecidableEq, Repr

/-- The network stack as `get_ip` observes it, indexed by poll instant:
whether `stack.is_link_up()` holds at the n-th poll, and what
`stack.config_v4()` returns at the n-th poll. -/
structure NetEnv where
  is_link_up : Nat → Bool
  config_v4 : Nat → Option StaticConfigV4

/-- The first loop of `get_ip` (main.rs): poll `is_link_up` at instant
`i`; on success break with the poll index and the milliseconds slept so
far, otherwise sleep `MILLISECONDS_TO_WAIT` and poll again. `fuel`
bounds the unrolling of the unbounded loop. -/
def wait_link_up (env : NetEnv) : Nat → Nat → Nat → Option (Nat × Nat)
  | 0, _, _ => none
  | fuel + 1, i, ms =>
      if env.is_link_up i then some (i, ms)
      else wait_link_up env fuel (i + 1) (ms + MILLISECONDS_TO_WAIT)

/-- The second loop of `get_ip` (main.rs): poll `config_v4` at instant
`i`; on a leased configuration return it with the milliseconds slept so
far, otherwise sleep `MILLISECONDS_TO_WAIT` and poll again. -/
def wait_config_v4 (env : NetEnv) :
    Nat → Nat → Nat → Option (StaticConfigV4 × Nat)
  | 0, _, _ => none
  | fuel + 1, i, ms =>
      match env.config_v4 i with
      | some c => some (c, ms)
      | none => wait_config_v4 env fuel (i + 1) (ms + MILLISECONDS_TO_WAIT)

/-- `get_ip` (main.rs): run the link loop from instant 0, then — only
after the link is up — run the lease loop from that instant, returning
the leased address (with the total milliseconds slept). `none` models
the call still blocking after `fuel` polls. -/
def get_ip (env : NetEnv) (fuel : Nat) : Option (Nat × Nat) :=
  match wait_link_up env fuel 0 0 with
  | none => none
  | some (i, ms) =>
      match wait_config_v4 env fuel i ms with
      | none => none
      | some (c, ms2) => some (c.address.address, ms2)

theorem wait_link_up_never (env : NetEnv)
    (h : ∀ k, env.is_link_up k = false) :
    ∀ fuel i ms, wait_link_up env fuel i ms = none := by
  intro fuel
  induction fuel with
  | zero => intro i ms; rfl
  | succ n ih =>
    intro i ms
    rw [wait_link_up, if_neg (by simp [h i])]
    exact ih (i + 1) (ms + MILLISECONDS_TO_WAIT)

theorem wait_config_v4_never (env : NetEnv)
    (h : ∀ k, env.config_v4 k = none) :
    ∀ fuel i ms, wait_config_v4 env fuel i ms = none := by
  intro fuel
  induction fuel with
  | zero => intro i ms; rfl
  | succ n ih =>
    intro i ms
    rw [wait_config_v4, h i]
    exact ih (i + 1) (ms + MILLISECONDS_TO_WAIT)

theorem wait_link_up_first (env : NetEnv) (i : Nat)
    (h1 : ∀ k, k < i → env.is_link_up k = false)
    (h2 : env.is_link_up i = true) :
    ∀ fuel start ms, start ≤ i → i < start + fuel →
      wait_link_up env fuel start ms
        = some (i, ms + MILLISECONDS_TO_WAIT * (i - start)) := by
  intro fuel
  induction fuel with
  | zero => intro start ms hs hf; omega
  | succ n ih =>
    intro start ms hs hf
    by_cases he : start = i
    · subst he
      rw [wait_link_up, if_pos h2]
      simp
    · have hlt : start < i := by omega
      rw [wait_link_up, if_neg (by simp [h1 start hlt]),
        ih (start + 1) (ms + MILLISECONDS_TO_WAIT) (by omega) (by omega)]
      have harith : ms + MILLISECONDS_TO_WAIT
          + MILLISECONDS_TO_WAIT * (i - (start + 1))
          = ms + MILLISECONDS_TO_WAIT * (i - start) := by
        simp only [MILLISECONDS_TO_WAIT]
        omega
      rw [harith]

theorem wait_config_v4_first (env : NetEnv) (j : Nat)
    (c : StaticConfigV4) (h4 : env.config_v4 j = some c) :
    ∀ fuel start ms, (∀ k, start ≤ k → k < j → env.config_v4 k = none) →
      start ≤ j → j < start + fuel →
      wait_config_v4 env fuel start ms
        = some (c, ms + MILLISECONDS_TO_WAIT * (j - start)) := by
  intro fuel
  induction fuel with
  | zero => intro start ms h3 hs hf; omega
  | succ n ih =>
    intro start ms h3 hs hf
    by_cases he : start = j
    · subst he
      rw [wait_config_v4, h4]
      simp
    · have hlt : start < j := by omega
      rw [wait_config_v4, h3 start (le_refl start) hlt,
        ih (start + 1) (ms + MILLISECONDS_TO_WAIT)
          (fun k hk1 hk2 => h3 k (by omega) hk2) (by omega) (by omega)]
      have harith : ms + MILLISECONDS_TO_WAIT
          + MILLISECONDS_TO_WAIT * (j - (start + 1))
          = ms + MILLISECONDS_TO_WAIT * (j - start) := by
        simp only [MILLISECONDS_TO_WAIT]
        omega
      rw [harith]

/-- C6: `get_ip` first polls link-layer carrier presence every
`MILLISECONDS_TO_WAIT = 100` ms until it is up (first up at poll `i`),
only then polls for a leased IPv4 configuration at the same interval
(first leased at poll `j ≥ i`), and returns that leased address having
slept 100 ms per failed poll (`100 * j` ms in total); it enforces no
timeout: if the carrier never comes up, or the lease never arrives, it
returns nothing for every poll budget — it blocks indefinitely. -/
theorem get_ip_polls_then_lease (env : NetEnv) (i j : Nat)
    (c : StaticConfigV4)
    (h1 : ∀ k, k < i → env.is_link_up k = false)
    (h2 : env.is_link_up i = true)
    (h3 : ∀ k, i ≤ k → k < j → env.config_v4 k = none)
    (h4 : env.config_v4 j = some c)
    (hij : i ≤ j) :
    get_ip env (j + 1)
      = some (c.address.address, MILLISECONDS_TO_WAIT * j)
    ∧ MILLISECONDS_TO_WAIT = 100
    ∧ (∀ f, ∀ e : NetEnv, (∀ k, e.is_link_up k = false) →
        get_ip e f = none)
    ∧ (∀ f, ∀ e : NetEnv, (∀ k, e.config_v4 k = none) →
        get_ip e f = none) := by
  refine ⟨?_, rfl, ?_, ?_⟩
  · rw [get_ip,
      wait_link_up_first env i h1 h2 (j + 1) 0 0 (by omega) (by omega)]
    dsimp only
    rw [wait_config_v4_first env j c h4 (j + 1) i
        (0 + MILLISECONDS_TO_WAIT * (i - 0)) h3 hij (by omega)]
    have harith : 0 + MILLISECONDS_TO_WAIT * (i - 0)
        + MILLISECONDS_TO_WAIT * (j - i) = MILLISECONDS_TO_WAIT * j := by
      simp only [MILLISECONDS_TO_WAIT]
      omega
    rw [harith]
  · intro f e he
    rw [get_ip, wait_link_up_never e he f 0 0]
  · intro f e he
    rw [get_ip]
    cases hw : wait_link_up e f 0 0 with
    | none => rfl
    | some p =>
        obtain ⟨a, b⟩ := p
        dsimp only
        rw [wait_config_v4_never e he f a b]

/-- A concrete stack history: carrier up from poll 1 on, lease `7`
present from poll 2 on. -/
def pollEnvW : NetEnv :=
  { is_link_up := fun k => k != 0
    config_v4 := fun k => if k = 2 then some ⟨⟨7⟩⟩ else none }

/-- Witness for C6: on `pollEnvW`, `get_ip` returns address 7 after
two 100 ms sleeps. -/
theorem get_ip_polls_then_lease_witness :
    get_ip pollEnvW 3 = some (7, MILLISECONDS_TO_WAIT * 2) :=
  (get_ip_polls_then_lease pollEnvW 1 2 ⟨⟨7⟩⟩
    (by intro k hk; have h0 : k = 0 := by omega
        subst h0; rfl)
    rfl
    (by intro k hk1 hk2; have h0 : k = 1 := by omega
        subst h0; rfl)
    rfl
    (by omega)).1

end ButtonLed
